import Mathlib

/-!
Verification of the EngGameHub authentication / token-lifecycle subsystem.

Shallow embedding of the password policy (`password.service.ts`), the token
service (`token.service.ts`) and the auth orchestrator (`auth.service.ts`).
Passwords are modelled as `List Char`; timestamps are natural numbers counting
seconds; the Redis cache and the Prisma tables are explicit association lists
threaded through every operation; JWTs are modelled as structured values whose
signature check is the equality of the embedded signing secret / issuer /
audience with the service configuration, and a `malformed` constructor stands
for input strings that do not parse as a JWT at all.
-/

namespace EngGameHub

/-! ## PasswordService (`password.service.ts`) -/

namespace PasswordService

/-- Character class `/[A-Z]/` of the complexity check. -/
def hasUpperCase (p : List Char) : Bool := p.any Char.isUpper

/-- Character class `/[a-z]/` of the complexity check. -/
def hasLowerCase (p : List Char) : Bool := p.any Char.isLower

/-- Character class `/\d/` of the complexity check. -/
def hasNumbers (p : List Char) : Bool := p.any Char.isDigit

/-- The exact special-character class of the complexity check
(the regex character set of `hasSpecialChar`). -/
def specialChars : List Char := "!@#$%^&*(),.?\":\x7b\x7d|<>".toList

/-- Character class of special characters of the complexity check. -/
def hasSpecialChar (p : List Char) : Bool := p.any (fun c => specialChars.contains c)

/-- Number of satisfied complexity checks
(`complexityChecks.filter(Boolean).length`). -/
def passedChecks (p : List Char) : Nat :=
  ([hasUpperCase p, hasLowerCase p, hasNumbers p, hasSpecialChar p].filter id).length

/-- The fixed common-password list of `validatePasswordStrength`. -/
def commonPasswords : List (List Char) :=
  ["password", "password123", "123456", "qwerty", "abc123",
   "admin", "root", "user", "guest", "welcome", "letmein"].map String.toList

/-- The keyboard / alphabet / digit sequences of `hasSequentialChars`. -/
def sequences : List (List Char) :=
  ["abcdefghijklmnopqrstuvwxyz",
   "ABCDEFGHIJKLMNOPQRSTUVWXYZ",
   "0123456789",
   "qwertyuiop",
   "asdfghjkl",
   "zxcvbnm"].map String.toList

/-- Substring containment, the model of `String.prototype.includes`. -/
def containsSub (hay sub : List Char) : Bool :=
  (List.range (hay.length + 1)).any (fun i => decide ((hay.drop i).take sub.length = sub))

/-- Model of `hasSequentialChars(password, minLength)`: some window of length
`m` of some known sequence, forward or reversed, occurs (case-insensitively)
in the password. -/
def hasSequentialChars (p : List Char) (m : Nat) : Bool :=
  sequences.any (fun seq =>
    (List.range (seq.length + 1 - m)).any (fun i =>
      let sub := (seq.drop i).take m
      let lp := p.map Char.toLower
      containsSub lp (sub.map Char.toLower) ||
        containsSub lp (sub.reverse.map Char.toLower)))

/-- Model of `hasRepeatingChars(password, minLength)`: some position starts a
run of `m` identical consecutive characters. -/
def hasRepeatingChars (p : List Char) (m : Nat) : Bool :=
  (List.range (p.length + 1 - m)).any (fun i =>
    match (p.drop i).head? with
    | some c => decide ((p.drop i).take m = List.replicate m c)
    | none => false)

/-- The six rejection reasons of `validatePasswordStrength`, in source order. -/
inductive PolicyViolation where
  | tooShort
  | tooLong
  | complexity
  | commonPassword
  | sequentialChars
  | repeatingChars
deriving DecidableEq, Repr

/-- Model of `validatePasswordStrength`: `none` when the password is accepted,
`some v` for the first thrown `ValidationError`. -/
def validatePasswordStrength (p : List Char) : Option PolicyViolation :=
  if p.length < 8 then some .tooShort
  else if p.length > 128 then some .tooLong
  else if passedChecks p < 3 then some .complexity
  else if commonPasswords.contains (p.map Char.toLower) then some .commonPassword
  else if hasSequentialChars p 3 then some .sequentialChars
  else if hasRepeatingChars p 3 then some .repeatingChars
  else none

/-- The four character sets of `generateRandomPassword`. -/
def uppercaseChars : List Char := "ABCDEFGHIJKLMNOPQRSTUVWXYZ".toList

/-- Lowercase character set of `generateRandomPassword`. -/
def lowercaseChars : List Char := "abcdefghijklmnopqrstuvwxyz".toList

/-- Digit character set of `generateRandomPassword`. -/
def numberChars : List Char := "0123456789".toList

/-- Symbol character set of `generateRandomPassword`. -/
def symbolChars : List Char := "!@#$%^&*()_+-=[]\x7b\x7d|;:,.<>?".toList

/-- Concatenation `allChars` of `generateRandomPassword`. -/
def allChars : List Char := uppercaseChars ++ lowercaseChars ++ numberChars ++ symbolChars

/-- Model of `getRandomChar(charset)`: the random draw is made explicit as the
chosen index `r` (reduced modulo the charset size, as
`Math.floor(Math.random() * charset.length)` always lands in range). -/
def getRandomChar (charset : List Char) (r : Nat) : Char :=
  charset.getD (r % charset.length) ' '

/-- Model of `generateRandomPassword(length)`. `rnd i` is the outcome of the
`i`-th call to the random source, and `shuffle` is the final
`split('').sort(() => Math.random() - 0.5).join('')` step, which rearranges
the accumulated characters. -/
def generateRandomPassword (len : Nat) (rnd : Nat → Nat)
    (shuffle : List Char → List Char) : List Char :=
  let base := [getRandomChar uppercaseChars (rnd 0),
               getRandomChar lowercaseChars (rnd 1),
               getRandomChar numberChars (rnd 2),
               getRandomChar symbolChars (rnd 3)]
  let extra := (List.range (len - 4)).map (fun i => getRandomChar allChars (rnd (4 + i)))
  shuffle (base ++ extra)

/-- A nonempty charset always yields one of its own characters. -/
lemma getRandomChar_mem (cs : List Char) (r : Nat) (h : cs ≠ []) :
    getRandomChar cs r ∈ cs := by
  have hlen : 0 < cs.length := List.length_pos.mpr h
  have hlt : r % cs.length < cs.length := Nat.mod_lt _ hlen
  unfold getRandomChar
  rw [List.getD_eq_getElem?_getD, List.getElem?_eq_getElem hlt]
  exact List.getElem_mem hlt

end PasswordService

open PasswordService in
/-- C2: `validatePasswordStrength` accepts a password exactly when its length
lies in [8,128], at least 3 of the 4 character classes are present, the
lowercased password is not on the fixed common-password list, no 3-window of
a known sequence (forward or reversed) occurs case-insensitively, and no
character repeats 3 times in a row. -/
theorem validatePasswordStrength_accepts_iff (p : List Char) :
    validatePasswordStrength p = none ↔
      (8 ≤ p.length ∧ p.length ≤ 128 ∧ 3 ≤ passedChecks p ∧
       commonPasswords.contains (p.map Char.toLower) = false ∧
       hasSequentialChars p 3 = false ∧
       hasRepeatingChars p 3 = false) := by
  unfold validatePasswordStrength
  split_ifs with h1 h2 h3 h4 h5 h6 <;> simp_all

open PasswordService in
/-- C10: for every requested length and every outcome of the random source and
of the final shuffle, `generateRandomPassword` returns exactly
`max length 4` characters and contains at least one character from each of
the four charsets (uppercase, lowercase, digit, symbol); lengths below 4
still yield 4 characters. -/
theorem generateRandomPassword_spec (len : Nat) (rnd : Nat → Nat)
    (shuffle : List Char → List Char) (hs : ∀ l, (shuffle l).Perm l) :
    (generateRandomPassword len rnd shuffle).length = max len 4 ∧
    (∃ c ∈ generateRandomPassword len rnd shuffle, c ∈ uppercaseChars) ∧
    (∃ c ∈ generateRandomPassword len rnd shuffle, c ∈ lowercaseChars) ∧
    (∃ c ∈ generateRandomPassword len rnd shuffle, c ∈ numberChars) ∧
    (∃ c ∈ generateRandomPassword len rnd shuffle, c ∈ symbolChars) := by
  unfold generateRandomPassword
  set base : List Char :=
    [getRandomChar uppercaseChars (rnd 0), getRandomChar lowercaseChars (rnd 1),
     getRandomChar numberChars (rnd 2), getRandomChar symbolChars (rnd 3)] with hbase
  set extra : List Char :=
    (List.range (len - 4)).map (fun i => getRandomChar allChars (rnd (4 + i))) with hextra
  have hperm := hs (base ++ extra)
  refine ⟨?_, ?_, ?_, ?_, ?_⟩
  · rw [hperm.length_eq]
    simp only [List.length_append, hbase, hextra, List.length_map,
      List.length_range, List.length_cons, List.length_nil]
    rw [Nat.max_def]; split <;> omega
  · exact ⟨getRandomChar uppercaseChars (rnd 0),
      hperm.mem_iff.mpr (List.mem_append_left _ (by simp [hbase])),
      getRandomChar_mem _ _ (by decide)⟩
  · exact ⟨getRandomChar lowercaseChars (rnd 1),
      hperm.mem_iff.mpr (List.mem_append_left _ (by simp [hbase])),
      getRandomChar_mem _ _ (by decide)⟩
  · exact ⟨getRandomChar numberChars (rnd 2),
      hperm.mem_iff.mpr (List.mem_append_left _ (by simp [hbase])),
      getRandomChar_mem _ _ (by decide)⟩
  · exact ⟨getRandomChar symbolChars (rnd 3),
      hperm.mem_iff.mpr (List.mem_append_left _ (by simp [hbase])),
      getRandomChar_mem _ _ (by decide)⟩

open PasswordService in
/-- C10 witness: instantiating the shuffle with the identity permutation and a
concrete random source at requested length 0 still yields 4 characters with
one character of each class. -/
theorem generateRandomPassword_spec_witness :
    (∀ l : List Char, (id l).Perm l) ∧
    ((generateRandomPassword 0 (fun _ => 0) id).length = max 0 4 ∧
     (∃ c ∈ generateRandomPassword 0 (fun _ => 0) id, c ∈ uppercaseChars) ∧
     (∃ c ∈ generateRandomPassword 0 (fun _ => 0) id, c ∈ lowercaseChars) ∧
     (∃ c ∈ generateRandomPassword 0 (fun _ => 0) id, c ∈ numberChars) ∧
     (∃ c ∈ generateRandomPassword 0 (fun _ => 0) id, c ∈ symbolChars)) :=
  ⟨fun l => List.Perm.refl l,
   generateRandomPassword_spec 0 (fun _ => 0) id (fun l => List.Perm.refl l)⟩

/-! ## Data model shared by `token.service.ts` and `auth.service.ts` -/

/-- Service configuration (the `jwt.*` config values read in the constructor
of `TokenService`). -/
structure Cfg where
  secret : String
  issuer : String
  audience : String
  accessTokenExpiry : String
  refreshTokenExpiry : String
deriving DecidableEq, Repr

/-- The `JwtPayload` interface. `exp` is the absolute expiry second computed
by `jwtService.signAsync` from the `expiresIn` option. -/
structure JwtPayload where
  sub : String
  email : Option String
  roles : List String
  permissions : List String
  type : Option String
  jti : String
  exp : Nat
deriving DecidableEq, Repr

/-- A well-formed JWT string: its payload together with the signing secret,
issuer and audience baked into it at signing time. -/
structure SignedToken where
  payload : JwtPayload
  secret : String
  issuer : String
  audience : String
deriving DecidableEq, Repr

/-- An arbitrary input string handed to a verify/revoke operation: either a
well-formed JWT or garbage that fails to parse. -/
inductive TokenInput where
  | malformed
  | signed (t : SignedToken)
deriving DecidableEq, Repr

/-- A value stored in Redis: a plain string marker, a cached access-token
grant (the `JSON.stringify` blob of `generateTokenPair`), a cached single-use
token string, or a rate-limit counter. -/
inductive RVal where
  | str (v : String)
  | grant (userId : String) (email : String) (roles : List String) (permissions : List String)
  | tok (t : SignedToken)
  | num (n : Nat)
deriving DecidableEq, Repr

/-- One Redis key with its value and absolute expiry second. -/
structure RedisEntry where
  key : String
  val : RVal
  expiresAt : Nat
deriving DecidableEq, Repr

/-- The Redis keyspace. -/
abbrev Redis := List RedisEntry

/-- Redis `SETEX key seconds value`: overwrite the key with a fresh TTL. -/
def redisSetex (r : Redis) (now : Nat) (key : String) (ttl : Nat) (v : RVal) : Redis :=
  { key := key, val := v, expiresAt := now + ttl } ::
    List.filter (fun e => !(e.key == key)) r

/-- Redis `GET key`: present only while unexpired. -/
def redisGet (r : Redis) (now : Nat) (key : String) : Option RVal :=
  match List.find? (fun e => e.key == key) r with
  | some e => if now < e.expiresAt then some e.val else none
  | none => none

/-- Redis `DEL key`. -/
def redisDel (r : Redis) (key : String) : Redis :=
  List.filter (fun e => !(e.key == key)) r

/-- A row of the Prisma `RefreshToken` table. -/
structure RefreshTokenRow where
  id : String
  token : TokenInput
  userId : String
  expiresAt : Nat
  isRevoked : Bool
  createdAt : Nat
deriving DecidableEq, Repr

/-- A row of the Prisma `User` table (the fields this subsystem touches). -/
structure UserRec where
  id : String
  email : String
  passwordHash : String
  nickname : String
  roles : List String
  emailVerified : Bool
  mfaEnabled : Bool
deriving DecidableEq, Repr

/-- A row of the Prisma `AuditLog` table (fields relevant here). -/
structure AuditRec where
  userId : String
  action : String
deriving DecidableEq, Repr

/-- The whole mutable world threaded through the operations: the user and
refresh-token tables, the audit log, the Redis cache, and the async job
queue (pairs of job name and user id). -/
structure St where
  users : List UserRec
  refreshTokens : List RefreshTokenRow
  redis : Redis
  audit : List AuditRec
  queue : List (String × String)
deriving DecidableEq, Repr

/-- The `TokenData` interface returned by the verify operations. -/
structure TokenData where
  userId : String
  email : Option String
  type : String
  jti : Option String
deriving DecidableEq, Repr

/-- The `AuthTokens` result of `generateTokenPair`. -/
structure AuthTokens where
  accessToken : SignedToken
  refreshToken : SignedToken
  expiresIn : Nat
  tokenType : String
deriving DecidableEq, Repr

/-- The error taxonomy thrown by `auth.service.ts`. -/
inductive AuthError where
  | unauthorized (msg : String)
  | badRequest (msg : String)
  | conflict (msg : String)
  | validation (msg : String)
deriving DecidableEq, Repr

/-! ## TokenService (`token.service.ts`) -/

namespace TokenService

/-- Decimal value of a digit string. -/
def digitsToNat (ds : List Char) : Nat :=
  ds.foldl (fun acc c => acc * 10 + (c.toNat - 48)) 0

/-- Model of `parseExpiryToSeconds`: parse against the regex
`(\d+)([smhdw]?)` anchored on both sides, defaulting to 3600 on mismatch. -/
def parseExpiryToSeconds (expiry : String) : Nat :=
  let cs := expiry.toList
  let ds := cs.takeWhile Char.isDigit
  let rest := cs.dropWhile Char.isDigit
  if ds.isEmpty then 3600
  else
    match rest with
    | [] => digitsToNat ds * 1
    | [u] =>
      if u = 's' then digitsToNat ds * 1
      else if u = 'm' then digitsToNat ds * 60
      else if u = 'h' then digitsToNat ds * 3600
      else if u = 'd' then digitsToNat ds * 86400
      else if u = 'w' then digitsToNat ds * 604800
      else 3600
    | _ => 3600

/-- Model of `getUserPermissions`: role-based permission expansion with the
final `[...new Set(...)]` deduplication. -/
def getUserPermissions (u : UserRec) : List String :=
  let p1 := if u.roles.contains "ADMIN" then
    ["users:read", "users:write", "users:delete",
     "questions:read", "questions:write", "questions:delete", "questions:review",
     "games:read", "games:write", "games:moderate",
     "analytics:read", "analytics:write",
     "system:read", "system:write"] else []
  let p2 := if u.roles.contains "TEACHER" then
    ["users:read",
     "questions:read", "questions:write", "questions:review",
     "games:read", "games:moderate",
     "analytics:read"] else []
  let p3 := if u.roles.contains "STUDENT" then
    ["questions:read",
     "games:read", "games:join",
     "learning:read", "learning:write"] else []
  (p1 ++ p2 ++ p3).eraseDups

/-- Model of `jwtService.verifyAsync` with secret, issuer and audience
options: succeeds on a well-formed token signed with the same secret for the
same issuer/audience that has not expired. -/
def jwtVerify (secret issuer audience : String) (now : Nat) (tok : TokenInput) :
    Option JwtPayload :=
  match tok with
  | .malformed => none
  | .signed t =>
    if t.secret == secret && t.issuer == issuer && t.audience == audience &&
        decide (now < t.payload.exp) then
      some t.payload
    else none

/-- Model of the `verifyAsync` call of `revokeRefreshToken`: only the secret
is checked and expiry is ignored (`ignoreExpiration: true`; no
issuer/audience options are passed there). -/
def jwtVerifyIgnoreExp (secret : String) (tok : TokenInput) : Option JwtPayload :=
  match tok with
  | .malformed => none
  | .signed t => if t.secret == secret then some t.payload else none

/-- Model of `generateTokenPair`. The two `uuidv4()` draws are passed in as
`jti` (access token id) and `rjti` (refresh token id). Appends one
`RefreshToken` row and writes one `access_token:<jti>` grant entry. -/
def generateTokenPair (cfg : Cfg) (now : Nat) (jti rjti : String) (u : UserRec)
    (st : St) : AuthTokens × St :=
  let permissions := getUserPermissions u
  let expiresIn := parseExpiryToSeconds cfg.accessTokenExpiry
  let refreshExpiresIn := parseExpiryToSeconds cfg.refreshTokenExpiry
  let access : SignedToken :=
    { payload := { sub := u.id, email := some u.email, roles := u.roles,
                   permissions := permissions, type := none, jti := jti,
                   exp := now + expiresIn },
      secret := cfg.secret, issuer := cfg.issuer, audience := cfg.audience }
  let refresh : SignedToken :=
    { payload := { sub := u.id, email := none, roles := [], permissions := [],
                   type := some "refresh", jti := rjti,
                   exp := now + refreshExpiresIn },
      secret := cfg.secret, issuer := cfg.issuer, audience := cfg.audience }
  let row : RefreshTokenRow :=
    { id := rjti, token := .signed refresh, userId := u.id,
      expiresAt := now + refreshExpiresIn, isRevoked := false, createdAt := now }
  let redis' := redisSetex st.redis now ("access_token:" ++ jti) expiresIn
    (.grant u.id u.email u.roles permissions)
  ({ accessToken := access, refreshToken := refresh, expiresIn := expiresIn,
     tokenType := "Bearer" },
   { st with refreshTokens := st.refreshTokens ++ [row], redis := redis' })

/-- Model of the private `isTokenRevoked`: the per-token-id revocation marker
`revoked_token:<jti>` equals the string `'true'`. -/
def isTokenRevoked (red : Redis) (now : Nat) (jti : String) : Bool :=
  redisGet red now ("revoked_token:" ++ jti) == some (.str "true")

/-- Model of `verifyAccessToken`: signature/issuer/audience/expiry check,
then the per-token-id revocation marker, then presence of the cached
`access_token:<jti>` grant. -/
def verifyAccessToken (cfg : Cfg) (now : Nat) (tok : TokenInput) (st : St) :
    Option JwtPayload :=
  match jwtVerify cfg.secret cfg.issuer cfg.audience now tok with
  | none => none
  | some payload =>
    if isTokenRevoked st.redis now payload.jti then none
    else
      match redisGet st.redis now ("access_token:" ++ payload.jti) with
      | none => none
      | some _ => some payload

/-- Model of `verifyRefreshToken`: signature/expiry check, `type` must be
`refresh`, and the durable row with that id must exist, be unrevoked and be
unexpired. -/
def verifyRefreshToken (cfg : Cfg) (now : Nat) (tok : TokenInput) (st : St) :
    Option TokenData :=
  match jwtVerify cfg.secret cfg.issuer cfg.audience now tok with
  | none => none
  | some payload =>
    if payload.type != some "refresh" then none
    else
      match List.find? (fun r => r.id == payload.jti && !r.isRevoked)
          st.refreshTokens with
      | none => none
      | some row =>
        if row.expiresAt < now then none
        else some { userId := payload.sub, email := payload.email,
                    type := "refresh", jti := some payload.jti }

/-- The row update applied by `revokeRefreshToken`'s `updateMany`. -/
def revokeRowById (jti : String) (r : RefreshTokenRow) : RefreshTokenRow :=
  if r.id == jti && !r.isRevoked then { r with isRevoked := true } else r

/-- Model of `revokeRefreshToken`: verify with expiry ignored; on any
verification failure the catch block makes the call a no-op; otherwise (and
when the payload carries a truthy `jti`) flip `isRevoked` on the matching
unrevoked rows. -/
def revokeRefreshToken (cfg : Cfg) (tok : TokenInput) (st : St) : St :=
  match jwtVerifyIgnoreExp cfg.secret tok with
  | none => st
  | some payload =>
    if payload.jti != "" then
      { st with refreshTokens := st.refreshTokens.map (revokeRowById payload.jti) }
    else st

/-- Model of the private `addUserToBlacklist`: write `user_blacklist:<id>`
with a 24h TTL. -/
def addUserToBlacklist (now : Nat) (userId : String) (red : Redis) : Redis :=
  redisSetex red now ("user_blacklist:" ++ userId) 86400 (.str "true")

/-- Model of `revokeAllUserTokens`: bulk-revoke the user's unrevoked rows and
write the per-user blacklist marker. -/
def revokeAllUserTokens (now : Nat) (userId : String) (st : St) : St :=
  { st with
    refreshTokens := st.refreshTokens.map (fun r =>
      if r.userId == userId && !r.isRevoked then { r with isRevoked := true } else r),
    redis := addUserToBlacklist now userId st.redis }

/-- Model of `generateEmailVerificationToken`: sign a 24h
`email_verification` token and cache it under `email_verification:<userId>`
(overwriting any previous entry). -/
def generateEmailVerificationToken (cfg : Cfg) (now : Nat) (jti userId email : String)
    (st : St) : SignedToken × St :=
  let token : SignedToken :=
    { payload := { sub := userId, email := some email, roles := [],
                   permissions := [], type := some "email_verification",
                   jti := jti, exp := now + 86400 },
      secret := cfg.secret, issuer := cfg.issuer, audience := cfg.audience }
  let redis' := redisSetex st.redis now ("email_verification:" ++ userId) 86400 (.tok token)
  (token, { st with redis := redis' })

/-- Model of `verifyEmailToken`: signature/issuer/audience/expiry check, the
`type` must be `email_verification`, the cached value must equal the
presented token, and on success the cache entry is deleted before
returning. -/
def verifyEmailToken (cfg : Cfg) (now : Nat) (tok : TokenInput) (st : St) :
    Option TokenData × St :=
  match jwtVerify cfg.secret cfg.issuer cfg.audience now tok with
  | none => (none, st)
  | some payload =>
    if payload.type != some "email_verification" then (none, st)
    else
      match redisGet st.redis now ("email_verification:" ++ payload.sub) with
      | some (.tok t) =>
        if TokenInput.signed t == tok then
          (some { userId := payload.sub, email := payload.email,
                  type := "email_verification", jti := none },
           { st with redis := redisDel st.redis ("email_verification:" ++ payload.sub) })
        else (none, st)
      | _ => (none, st)

/-- Model of `generatePasswordResetToken`: sign a 1h `password_reset` token
and cache it under `password_reset:<userId>` (overwriting any previous
entry). -/
def generatePasswordResetToken (cfg : Cfg) (now : Nat) (jti userId email : String)
    (st : St) : SignedToken × St :=
  let token : SignedToken :=
    { payload := { sub := userId, email := some email, roles := [],
                   permissions := [], type := some "password_reset",
                   jti := jti, exp := now + 3600 },
      secret := cfg.secret, issuer := cfg.issuer, audience := cfg.audience }
  let redis' := redisSetex st.redis now ("password_reset:" ++ userId) 3600 (.tok token)
  (token, { st with redis := redis' })

/-- Model of `verifyPasswordResetToken`: as `verifyEmailToken` but for the
`password_reset` purpose. -/
def verifyPasswordResetToken (cfg : Cfg) (now : Nat) (tok : TokenInput) (st : St) :
    Option TokenData × St :=
  match jwtVerify cfg.secret cfg.issuer cfg.audience now tok with
  | none => (none, st)
  | some payload =>
    if payload.type != some "password_reset" then (none, st)
    else
      match redisGet st.redis now ("password_reset:" ++ payload.sub) with
      | some (.tok t) =>
        if TokenInput.signed t == tok then
          (some { userId := payload.sub, email := payload.email,
                  type := "password_reset", jti := none },
           { st with redis := redisDel st.redis ("password_reset:" ++ payload.sub) })
        else (none, st)
      | _ => (none, st)

/-- Model of `cleanExpiredTokens`: delete rows that are expired or that are
revoked with `createdAt` older than 7 days before the sweep. -/
def cleanExpiredTokens (now : Nat) (st : St) : St :=
  { st with refreshTokens := st.refreshTokens.filter (fun r =>
      !(r.expiresAt < now || (r.isRevoked && r.createdAt < now - 604800))) }

end TokenService

/-! ## AuthService (`auth.service.ts`) -/

namespace AuthService

/-- Email normalization `email.toLowerCase().trim()` used by
`findUserByEmail`, modelled on the underlying character list (lowercase every
character, then strip leading and trailing whitespace). -/
def normalizeEmail (e : String) : String :=
  String.mk (((((e.data.map Char.toLower).dropWhile Char.isWhitespace).reverse).dropWhile Char.isWhitespace).reverse)

/-- Model of `findUserByEmail`: unique lookup by normalized email. -/
def findUserByEmail (users : List UserRec) (email : String) : Option UserRec :=
  List.find? (fun u => u.email == normalizeEmail email) users

/-- Model of `findUserById`. -/
def findUserById (users : List UserRec) (id : String) : Option UserRec :=
  List.find? (fun u => u.id == id) users

/-- Modelled from the spec: `redisService.checkRateLimit(key, limit, window)`.
The `RedisService` implementation is not among the sources; per §4.3 of the
design it is a fixed window — the counter of the bucket `now / window` is
incremented and the call is allowed iff the post-increment count is at most
the limit; the counter expires with the window. -/
def checkRateLimit (red : Redis) (now : Nat) (key : String) (limit window : Nat) :
    Bool × Redis :=
  let bkey := key ++ ":" ++ toString (now / window)
  match redisGet red now bkey with
  | some (.num n) =>
    (decide (n + 1 ≤ limit),
     red.map (fun e => if e.key == bkey then { e with val := .num (n + 1) } else e))
  | _ => (decide (1 ≤ limit), redisSetex red now bkey window (.num 1))

/-- Model of the private `validateUserCredentials`. Password hashing is
bcrypt, modelled by the abstract boolean verifier `verifyPw` (the model of
`passwordService.verifyPassword`). A failed password check appends a
`LOGIN_FAILED` audit row; a missing user appends nothing. -/
def validateUserCredentials (verifyPw : String → String → Bool) (st : St)
    (email pwd : String) : Except AuthError UserRec × St :=
  match findUserByEmail st.users email with
  | none => (.error (.unauthorized "Invalid credentials"), st)
  | some u =>
    if verifyPw pwd u.passwordHash then (.ok u, st)
    else (.error (.unauthorized "Invalid credentials"),
          { st with audit := st.audit ++ [{ userId := u.id, action := "LOGIN_FAILED" }] })

/-- Model of `sendVerificationEmail`: missing user and already-verified user
both fail with `BadRequestException` before the rate-limit check runs and
before a job is enqueued; otherwise the rate limit is consulted (mutating
the counter) and on success a `send-verification-email` job is enqueued. -/
def sendVerificationEmail (now : Nat) (email : String) (st : St) :
    Except AuthError Unit × St :=
  match findUserByEmail st.users email with
  | none => (.error (.badRequest "User not found"), st)
  | some u =>
    if u.emailVerified then (.error (.badRequest "Email already verified"), st)
    else
      let res := checkRateLimit st.redis now ("verify_email:" ++ email) 3 300
      if !res.fst then
        (.error (.badRequest "Too many verification emails sent. Please try again later."),
         { st with redis := res.snd })
      else
        let queue' := st.queue ++ [("send-verification-email", u.id)]
        (.ok (), { st with redis := res.snd, queue := queue' })

/-- Model of `refreshTokens`: verify the presented refresh token, look the
user up, issue a fresh pair (`jti`/`rjti` are the new `uuidv4()` draws),
revoke the presented token, and log the event. -/
def refreshTokens (cfg : Cfg) (now : Nat) (jti rjti : String) (tok : TokenInput)
    (st : St) : Except AuthError AuthTokens × St :=
  match TokenService.verifyRefreshToken cfg now tok st with
  | none => (.error (.unauthorized "Invalid or expired refresh token"), st)
  | some td =>
    match findUserById st.users td.userId with
    | none => (.error (.unauthorized "User not found"), st)
    | some u =>
      let pair := TokenService.generateTokenPair cfg now jti rjti u st
      let st2 := TokenService.revokeRefreshToken cfg tok pair.snd
      (.ok pair.fst,
       { st2 with audit := st2.audit ++ [{ userId := u.id, action := "TOKEN_REFRESH" }] })

end AuthService

/-! ## Shared cache lemmas -/

/-- Lemma: `find?` commutes with a `filter` that keeps everything the search
predicate accepts. -/
lemma find?_filter_of_imp {α : Type} (l : List α) (p q : α → Bool)
    (h : ∀ e, p e = true → q e = true) :
    (l.filter q).find? p = l.find? p := by
  induction l with
  | nil => rfl
  | cons a t ih =>
    by_cases hq : q a = true
    · by_cases hp : p a = true
      · simp [List.filter_cons, hq, List.find?_cons, hp]
      · simp only [Bool.not_eq_true] at hp
        simp [List.filter_cons, hq, List.find?_cons, hp, ih]
    · have hp : p a = false := by
        cases hpa : p a
        · rfl
        · exact absurd (h a hpa) hq
      simp only [Bool.not_eq_true] at hq
      simp [List.filter_cons, hq, List.find?_cons, hp, ih]

/-- Reading back the key just written by `SETEX` yields the written value
while it is unexpired. -/
lemma redisGet_setex_self (r : Redis) (now n2 : Nat) (k : String) (ttl : Nat) (v : RVal) :
    redisGet (redisSetex r now k ttl v) n2 k =
      if n2 < now + ttl then some v else none := by
  unfold redisGet redisSetex
  rw [List.find?_cons_of_pos _ (by simp)]

/-- Reading another key is unaffected by `SETEX`. -/
lemma redisGet_setex_other (r : Redis) (now n2 : Nat) (k k' : String) (ttl : Nat)
    (v : RVal) (h : k' ≠ k) :
    redisGet (redisSetex r now k ttl v) n2 k' = redisGet r n2 k' := by
  unfold redisGet redisSetex
  rw [List.find?_cons_of_neg _ (by simp [beq_iff_eq]; exact fun hh => h hh.symm),
    find?_filter_of_imp]
  intro e he
  simp only [beq_iff_eq] at he
  simp [he, h]

/-- Reading a key just deleted yields nothing. -/
lemma redisGet_del_self (r : Redis) (n : Nat) (k : String) :
    redisGet (redisDel r k) n k = none := by
  unfold redisGet redisDel
  have : List.find? (fun e => e.key == k) (List.filter (fun e => !(e.key == k)) r)
      = none := by
    rw [List.find?_eq_none]
    intro x hx
    have := (List.mem_filter.mp hx).2
    simp only [Bool.not_eq_true'] at this
    simp [this]
  rw [this]

/-! ## Concrete fixtures used by witnesses and counterexamples -/

/-- A concrete service configuration (the default config values). -/
def cfgW : Cfg :=
  { secret := "test-secret", issuer := "enggamehub", audience := "enggamehub-users",
    accessTokenExpiry := "15m", refreshTokenExpiry := "7d" }

/-- A concrete registered user. -/
def u1W : UserRec :=
  { id := "u1", email := "a@x.com", passwordHash := "h1", nickname := "Ann",
    roles := ["STUDENT"], emailVerified := false, mfaEnabled := false }

/-- The initial world: one user, empty tables and cache. -/
def st0W : St := { users := [u1W], refreshTokens := [], redis := [], audit := [], queue := [] }

/-- A token pair issued to the concrete user at time 0. -/
def pairW : AuthTokens × St := TokenService.generateTokenPair cfgW 0 "j0" "r0" u1W st0W

/-! ## C1 -/

open TokenService in
/-- C1 (divergence witness): issuing a pair at time 0 and immediately
verifying succeeds for both tokens, and `revokeAllUserTokens` does write the
`user_blacklist:u1` marker — yet `verifyAccessToken` still accepts the
untouched, unexpired access token afterwards, because no code path of
`verifyAccessToken` ever reads the per-user blacklist marker. The claim says
this verification must fail. -/
theorem verifyAccessToken_ignores_user_blacklist :
    (verifyAccessToken cfgW 0 (.signed pairW.fst.accessToken) pairW.snd).isSome = true ∧
    (verifyRefreshToken cfgW 0 (.signed pairW.fst.refreshToken) pairW.snd).isSome = true ∧
    redisGet (revokeAllUserTokens 0 "u1" pairW.snd).redis 0 "user_blacklist:u1"
      = some (.str "true") ∧
    (verifyAccessToken cfgW 0 (.signed pairW.fst.accessToken)
        (revokeAllUserTokens 0 "u1" pairW.snd)).isSome = true := by
  decide

/-! ## C5 -/

/-- A configuration whose refresh tokens live 30 days, so that a row can be
older than 7 days and still be unexpired. -/
def cfg30W : Cfg := { cfgW with refreshTokenExpiry := "30d" }

/-- World after issuing a 30-day refresh token at time 0 and calling
`revokeAllUserTokens` at time 648000 (7.5 days): the single row was revoked
43200 s (half a day) before the upcoming sweep and expires only at
2592000. -/
def st30W : St :=
  TokenService.revokeAllUserTokens 648000 "u1"
    (TokenService.generateTokenPair cfg30W 0 "j0" "r0" u1W st0W).snd

/-- The single refresh-token row of `st30W`. -/
def row30W : RefreshTokenRow :=
  { id := "r0",
    token := .signed
      { payload := { sub := "u1", email := none, roles := [], permissions := [],
                     type := some "refresh", jti := "r0", exp := 2592000 },
        secret := "test-secret", issuer := "enggamehub", audience := "enggamehub-users" },
    userId := "u1", expiresAt := 2592000, isRevoked := true, createdAt := 0 }

open TokenService in
/-- C5 counterexample: a row revoked only half a day before the sweep
(revocation at 648000, sweep at 691200) and unexpired (expiry 2592000) is
nevertheless deleted by `cleanExpiredTokens`, because the sweep keys the
7-day retention on `createdAt`, not on the time of revocation. The claim
says such a row is not deleted. -/
theorem cleanExpiredTokens_deletes_recently_revoked_row :
    st30W.refreshTokens = [row30W] ∧
    row30W.isRevoked = true ∧
    ¬(row30W.expiresAt < 691200) ∧
    (cleanExpiredTokens 691200 st30W).refreshTokens = [] := by
  decide

open TokenService in
/-- C5 (amended): the sweep deletes exactly the rows that are expired or
that are revoked and were created more than 7 days (604800 s) before the
sweep; every other row — in particular an unexpired revoked row created
within the last 7 days — is kept. -/
theorem cleanExpiredTokens_deletes_iff (now : Nat) (st : St) (r : RefreshTokenRow) :
    r ∈ (cleanExpiredTokens now st).refreshTokens ↔
      (r ∈ st.refreshTokens ∧ ¬(r.expiresAt < now) ∧
       ¬(r.isRevoked = true ∧ r.createdAt < now - 604800)) := by
  cases hrev : r.isRevoked <;>
    simp [cleanExpiredTokens, List.mem_filter, hrev, not_or]

/-! ## C3 -/

open TokenService in
/-- C3: for both single-use purposes, issuing a token and verifying it once
within its lifetime succeeds and consumes the cache entry, and a second
verification of the very same unexpired token (at any time `n2`, resp. `m2`)
returns invalid. -/
theorem singleUseToken_consumed_on_first_verify (cfg : Cfg) (st0 st0' : St)
    (jti uid email jti' uid' email' : String) (t0 n1 n2 m0 m1 m2 : Nat)
    (hn1 : n1 < t0 + 86400) (hm1 : m1 < m0 + 3600) :
    ((verifyEmailToken cfg n1
        (.signed (generateEmailVerificationToken cfg t0 jti uid email st0).fst)
        (generateEmailVerificationToken cfg t0 jti uid email st0).snd).fst
      = some { userId := uid, email := some email, type := "email_verification",
               jti := none } ∧
     (verifyEmailToken cfg n2
        (.signed (generateEmailVerificationToken cfg t0 jti uid email st0).fst)
        (verifyEmailToken cfg n1
          (.signed (generateEmailVerificationToken cfg t0 jti uid email st0).fst)
          (generateEmailVerificationToken cfg t0 jti uid email st0).snd).snd).fst
      = none) ∧
    ((verifyPasswordResetToken cfg m1
        (.signed (generatePasswordResetToken cfg m0 jti' uid' email' st0').fst)
        (generatePasswordResetToken cfg m0 jti' uid' email' st0').snd).fst
      = some { userId := uid', email := some email', type := "password_reset",
               jti := none } ∧
     (verifyPasswordResetToken cfg m2
        (.signed (generatePasswordResetToken cfg m0 jti' uid' email' st0').fst)
        (verifyPasswordResetToken cfg m1
          (.signed (generatePasswordResetToken cfg m0 jti' uid' email' st0').fst)
          (generatePasswordResetToken cfg m0 jti' uid' email' st0').snd).snd).fst
      = none) := by
  have hE1 : verifyEmailToken cfg n1
      (.signed (generateEmailVerificationToken cfg t0 jti uid email st0).fst)
      (generateEmailVerificationToken cfg t0 jti uid email st0).snd
      = (some { userId := uid, email := some email, type := "email_verification",
                jti := none },
         { st0 with
             redis := redisDel (redisSetex st0.redis t0 ("email_verification:" ++ uid) 86400 (.tok (generateEmailVerificationToken cfg t0 jti uid email st0).fst)) ("email_verification:" ++ uid) }) := by
    simp [generateEmailVerificationToken, verifyEmailToken, jwtVerify,
      redisGet_setex_self, hn1]
  have hR1 : verifyPasswordResetToken cfg m1
      (.signed (generatePasswordResetToken cfg m0 jti' uid' email' st0').fst)
      (generatePasswordResetToken cfg m0 jti' uid' email' st0').snd
      = (some { userId := uid', email := some email', type := "password_reset",
                jti := none },
         { st0' with
             redis := redisDel (redisSetex st0'.redis m0 ("password_reset:" ++ uid') 3600 (.tok (generatePasswordResetToken cfg m0 jti' uid' email' st0').fst)) ("password_reset:" ++ uid') }) := by
    simp [generatePasswordResetToken, verifyPasswordResetToken, jwtVerify,
      redisGet_setex_self, hm1]
  refine ⟨⟨by rw [hE1], ?_⟩, ⟨by rw [hR1], ?_⟩⟩
  · rw [hE1]
    by_cases h2 : n2 < t0 + 86400
    · simp [generateEmailVerificationToken, verifyEmailToken, jwtVerify, h2,
        redisGet_del_self]
    · simp [generateEmailVerificationToken, verifyEmailToken, jwtVerify, h2]
  · rw [hR1]
    by_cases h2 : m2 < m0 + 3600
    · simp [generatePasswordResetToken, verifyPasswordResetToken, jwtVerify, h2,
        redisGet_del_self]
    · simp [generatePasswordResetToken, verifyPasswordResetToken, jwtVerify, h2]

open TokenService in
/-- C3 witness: the single-use round trip at concrete times — issue at 0,
first verification at 100 succeeds, second verification of the same token at
200 fails, for both purposes. -/
theorem singleUseToken_consumed_on_first_verify_witness :
    ((verifyEmailToken cfgW 100
        (.signed (generateEmailVerificationToken cfgW 0 "e1" "u1" "a@x.com" st0W).fst)
        (generateEmailVerificationToken cfgW 0 "e1" "u1" "a@x.com" st0W).snd).fst
      = some { userId := "u1", email := some "a@x.com", type := "email_verification",
               jti := none } ∧
     (verifyEmailToken cfgW 200
        (.signed (generateEmailVerificationToken cfgW 0 "e1" "u1" "a@x.com" st0W).fst)
        (verifyEmailToken cfgW 100
          (.signed (generateEmailVerificationToken cfgW 0 "e1" "u1" "a@x.com" st0W).fst)
          (generateEmailVerificationToken cfgW 0 "e1" "u1" "a@x.com" st0W).snd).snd).fst
      = none) ∧
    ((verifyPasswordResetToken cfgW 100
        (.signed (generatePasswordResetToken cfgW 0 "p1" "u1" "a@x.com" st0W).fst)
        (generatePasswordResetToken cfgW 0 "p1" "u1" "a@x.com" st0W).snd).fst
      = some { userId := "u1", email := some "a@x.com", type := "password_reset",
               jti := none } ∧
     (verifyPasswordResetToken cfgW 200
        (.signed (generatePasswordResetToken cfgW 0 "p1" "u1" "a@x.com" st0W).fst)
        (verifyPasswordResetToken cfgW 100
          (.signed (generatePasswordResetToken cfgW 0 "p1" "u1" "a@x.com" st0W).fst)
          (generatePasswordResetToken cfgW 0 "p1" "u1" "a@x.com" st0W).snd).snd).fst
      = none) :=
  singleUseToken_consumed_on_first_verify cfgW st0W st0W "e1" "u1" "a@x.com"
    "p1" "u1" "a@x.com" 0 100 200 0 100 200 (by decide) (by decide)

/-! ## C6 -/

open TokenService in
/-- C6: for each single-use purpose, a second issuance for the same user
overwrites the cached entry: afterwards the first token verifies as invalid
(even while cryptographically valid and unexpired) and the second token
verifies successfully. -/
theorem singleUseToken_reissue_supersedes (cfg : Cfg) (st0 st0' : St)
    (uid email uid' email' jA jB jA' jB' : String) (nA nB n2 mA mB m2 : Nat)
    (hj : jA ≠ jB) (hn : n2 < nB + 86400)
    (hj' : jA' ≠ jB') (hm : m2 < mB + 3600) :
    ((verifyEmailToken cfg n2
        (.signed (generateEmailVerificationToken cfg nA jA uid email st0).fst)
        (generateEmailVerificationToken cfg nB jB uid email
          (generateEmailVerificationToken cfg nA jA uid email st0).snd).snd).fst
      = none ∧
     (verifyEmailToken cfg n2
        (.signed (generateEmailVerificationToken cfg nB jB uid email
          (generateEmailVerificationToken cfg nA jA uid email st0).snd).fst)
        (generateEmailVerificationToken cfg nB jB uid email
          (generateEmailVerificationToken cfg nA jA uid email st0).snd).snd).fst
      = some { userId := uid, email := some email, type := "email_verification",
               jti := none }) ∧
    ((verifyPasswordResetToken cfg m2
        (.signed (generatePasswordResetToken cfg mA jA' uid' email' st0').fst)
        (generatePasswordResetToken cfg mB jB' uid' email'
          (generatePasswordResetToken cfg mA jA' uid' email' st0').snd).snd).fst
      = none ∧
     (verifyPasswordResetToken cfg m2
        (.signed (generatePasswordResetToken cfg mB jB' uid' email'
          (generatePasswordResetToken cfg mA jA' uid' email' st0').snd).fst)
        (generatePasswordResetToken cfg mB jB' uid' email'
          (generatePasswordResetToken cfg mA jA' uid' email' st0').snd).snd).fst
      = some { userId := uid', email := some email', type := "password_reset",
               jti := none }) := by
  refine ⟨⟨?_, ?_⟩, ⟨?_, ?_⟩⟩
  · by_cases hA2 : n2 < nA + 86400
    · simp [generateEmailVerificationToken, verifyEmailToken, jwtVerify,
        redisGet_setex_self, hA2, hn, Ne.symm hj]
    · simp [generateEmailVerificationToken, verifyEmailToken, jwtVerify, hA2]
  · simp [generateEmailVerificationToken, verifyEmailToken, jwtVerify,
      redisGet_setex_self, hn]
  · by_cases hA2 : m2 < mA + 3600
    · simp [generatePasswordResetToken, verifyPasswordResetToken, jwtVerify,
        redisGet_setex_self, hA2, hm, Ne.symm hj']
    · simp [generatePasswordResetToken, verifyPasswordResetToken, jwtVerify, hA2]
  · simp [generatePasswordResetToken, verifyPasswordResetToken, jwtVerify,
      redisGet_setex_self, hm]

open TokenService in
/-- C6 witness: issuing token `e1` then token `e2` (resp. `p1` then `p2`)
for the same user at times 0 and 50 makes the first token invalid and the
second valid at time 100. -/
theorem singleUseToken_reissue_supersedes_witness :
    ((verifyEmailToken cfgW 100
        (.signed (generateEmailVerificationToken cfgW 0 "e1" "u1" "a@x.com" st0W).fst)
        (generateEmailVerificationToken cfgW 50 "e2" "u1" "a@x.com"
          (generateEmailVerificationToken cfgW 0 "e1" "u1" "a@x.com" st0W).snd).snd).fst
      = none ∧
     (verifyEmailToken cfgW 100
        (.signed (generateEmailVerificationToken cfgW 50 "e2" "u1" "a@x.com"
          (generateEmailVerificationToken cfgW 0 "e1" "u1" "a@x.com" st0W).snd).fst)
        (generateEmailVerificationToken cfgW 50 "e2" "u1" "a@x.com"
          (generateEmailVerificationToken cfgW 0 "e1" "u1" "a@x.com" st0W).snd).snd).fst
      = some { userId := "u1", email := some "a@x.com", type := "email_verification",
               jti := none }) ∧
    ((verifyPasswordResetToken cfgW 100
        (.signed (generatePasswordResetToken cfgW 0 "p1" "u1" "a@x.com" st0W).fst)
        (generatePasswordResetToken cfgW 50 "p2" "u1" "a@x.com"
          (generatePasswordResetToken cfgW 0 "p1" "u1" "a@x.com" st0W).snd).snd).fst
      = none ∧
     (verifyPasswordResetToken cfgW 100
        (.signed (generatePasswordResetToken cfgW 50 "p2" "u1" "a@x.com"
          (generatePasswordResetToken cfgW 0 "p1" "u1" "a@x.com" st0W).snd).fst)
        (generatePasswordResetToken cfgW 50 "p2" "u1" "a@x.com"
          (generatePasswordResetToken cfgW 0 "p1" "u1" "a@x.com" st0W).snd).snd).fst
      = some { userId := "u1", email := some "a@x.com", type := "password_reset",
               jti := none }) :=
  singleUseToken_reissue_supersedes cfgW st0W st0W "u1" "a@x.com" "u1" "a@x.com"
    "e1" "e2" "p1" "p2" 0 50 100 0 50 100
    (by decide) (by decide) (by decide) (by decide)

/-! ## C4 -/

/-- After the `updateMany` of `revokeRefreshToken` no row can still match
`id = jti AND isRevoked = false`. -/
lemma revokeRowById_kills (jti : String) (a : RefreshTokenRow) :
    ((TokenService.revokeRowById jti a).id == jti
      && !(TokenService.revokeRowById jti a).isRevoked) = false := by
  unfold TokenService.revokeRowById
  by_cases h1 : a.id = jti
  · by_cases h2 : a.isRevoked <;> simp [h1, h2]
  · simp [h1]

open TokenService AuthService in
/-- C4: under sequential execution, presenting the same refresh token twice
succeeds at most once — the first successful `refreshTokens` call revokes
the presented token's durable row, so the second call (at any time, with any
fresh ids) finds no unrevoked row for that token id and fails
`Unauthorized`. -/
theorem refreshTokens_single_use (cfg : Cfg) (st0 : St) (rt : SignedToken)
    (row : RefreshTokenRow) (u : UserRec) (now₁ now₂ : Nat) (jti rjti jti₂ rjti₂ : String)
    (hsec : rt.secret = cfg.secret) (hiss : rt.issuer = cfg.issuer)
    (haud : rt.audience = cfg.audience) (htype : rt.payload.type = some "refresh")
    (hexp : now₁ < rt.payload.exp)
    (hfind : List.find? (fun r => r.id == rt.payload.jti && !r.isRevoked)
      st0.refreshTokens = some row)
    (hrowexp : ¬(row.expiresAt < now₁))
    (huser : List.find? (fun x => x.id == rt.payload.sub) st0.users = some u)
    (hjti : rt.payload.jti ≠ "") :
    (AuthService.refreshTokens cfg now₁ jti rjti (.signed rt) st0).fst
      = .ok (TokenService.generateTokenPair cfg now₁ jti rjti u st0).fst ∧
    (AuthService.refreshTokens cfg now₂ jti₂ rjti₂ (.signed rt)
        (AuthService.refreshTokens cfg now₁ jti rjti (.signed rt) st0).snd).fst
      = .error (.unauthorized "Invalid or expired refresh token") := by
  have hver1 : TokenService.verifyRefreshToken cfg now₁ (.signed rt) st0
      = some { userId := rt.payload.sub, email := rt.payload.email,
               type := "refresh", jti := some rt.payload.jti } := by
    simp [TokenService.verifyRefreshToken, TokenService.jwtVerify, hsec, hiss, haud,
      hexp, htype, hfind, hrowexp]
  have hfirst : AuthService.refreshTokens cfg now₁ jti rjti (.signed rt) st0
      = (.ok (TokenService.generateTokenPair cfg now₁ jti rjti u st0).fst,
         { users := st0.users,
           refreshTokens := List.map (TokenService.revokeRowById rt.payload.jti) (TokenService.generateTokenPair cfg now₁ jti rjti u st0).snd.refreshTokens,
           redis := (TokenService.generateTokenPair cfg now₁ jti rjti u st0).snd.redis,
           audit := st0.audit ++ [{ userId := u.id, action := "TOKEN_REFRESH" }],
           queue := st0.queue }) := by
    simp only [AuthService.refreshTokens, hver1, AuthService.findUserById, huser]
    simp [TokenService.revokeRefreshToken, TokenService.jwtVerifyIgnoreExp, hsec, hjti,
      TokenService.generateTokenPair]
  refine ⟨by rw [hfirst], ?_⟩
  set S := (AuthService.refreshTokens cfg now₁ jti rjti (.signed rt) st0).snd with hS
  have hnone : List.find? (fun r => r.id == rt.payload.jti && !r.isRevoked)
      S.refreshTokens = none := by
    rw [hS, hfirst, List.find?_eq_none]
    intro x hx
    obtain ⟨a, _, rfl⟩ := List.mem_map.mp hx
    simp [revokeRowById_kills]
  have hver2 : TokenService.verifyRefreshToken cfg now₂ (.signed rt) S = none := by
    by_cases h2 : now₂ < rt.payload.exp
    · simp [TokenService.verifyRefreshToken, TokenService.jwtVerify, hsec, hiss, haud,
        h2, htype, hnone]
    · simp [TokenService.verifyRefreshToken, TokenService.jwtVerify, hsec, hiss, haud, h2]
  simp only [AuthService.refreshTokens]
  rw [hver2]

open TokenService AuthService in
/-- C4 witness: the concrete refresh token issued at time 0 is exchanged
successfully at time 10, and replaying it at time 20 fails `Unauthorized`. -/
theorem refreshTokens_single_use_witness :
    (AuthService.refreshTokens cfgW 10 "j1" "r1" (.signed pairW.fst.refreshToken)
        pairW.snd).fst
      = .ok (TokenService.generateTokenPair cfgW 10 "j1" "r1" u1W pairW.snd).fst ∧
    (AuthService.refreshTokens cfgW 20 "j2" "r2" (.signed pairW.fst.refreshToken)
        (AuthService.refreshTokens cfgW 10 "j1" "r1" (.signed pairW.fst.refreshToken)
          pairW.snd).snd).fst
      = .error (.unauthorized "Invalid or expired refresh token") :=
  refreshTokens_single_use cfgW pairW.snd pairW.fst.refreshToken
    { id := "r0", token := .signed pairW.fst.refreshToken, userId := "u1",
      expiresAt := 604800, isRevoked := false, createdAt := 0 }
    u1W 10 20 "j1" "r1" "j2" "r2"
    (by decide) (by decide) (by decide) (by decide) (by decide)
    (by decide) (by decide) (by decide) (by decide)

/-! ## C7 -/

open AuthService in
/-- C7: for every pair of login inputs, the error produced when no user
exists for the normalized email and the error produced when the password
fails to verify against the stored hash are the same `Unauthorized` value
with identical message, so the caller cannot tell a missing account from a
wrong password. -/
theorem login_failure_indistinguishable (verifyPw : String → String → Bool)
    (st : St) (email₁ pwd₁ email₂ pwd₂ : String) (u : UserRec)
    (hmiss : findUserByEmail st.users email₁ = none)
    (hhit : findUserByEmail st.users email₂ = some u)
    (hbad : verifyPw pwd₂ u.passwordHash = false) :
    (validateUserCredentials verifyPw st email₁ pwd₁).fst
      = .error (.unauthorized "Invalid credentials") ∧
    (validateUserCredentials verifyPw st email₂ pwd₂).fst
      = .error (.unauthorized "Invalid credentials") := by
  constructor
  · simp [validateUserCredentials, hmiss]
  · simp [validateUserCredentials, hhit, hbad]

/-- A second concrete user whose email is already verified; also the target
of the wrong-password login attempt. -/
def u2W : UserRec :=
  { id := "u2", email := "c@x.com", passwordHash := "pw2", nickname := "Cy",
    roles := ["STUDENT"], emailVerified := true, mfaEnabled := false }

/-- World with the two concrete users. -/
def st2W : St := { users := [u1W, u2W], refreshTokens := [], redis := [], audit := [], queue := [] }

open AuthService in
/-- C7 witness: with a plain-equality password verifier, the missing-account
attempt for `nobody@x.com` and the wrong-password attempt for `c@x.com`
produce the identical `Unauthorized` error. -/
theorem login_failure_indistinguishable_witness :
    (validateUserCredentials (fun p h => p == h) st2W "nobody@x.com" "x").fst
      = .error (.unauthorized "Invalid credentials") ∧
    (validateUserCredentials (fun p h => p == h) st2W "c@x.com" "wrong").fst
      = .error (.unauthorized "Invalid credentials") :=
  login_failure_indistinguishable (fun p h => p == h) st2W "nobody@x.com" "x"
    "c@x.com" "wrong" u2W (by decide) (by decide) (by decide)

/-! ## C8 -/

open TokenService in
/-- C8: `revokeRefreshToken` is total and tolerant: on any input that fails
the (expiry-ignoring, secret-only) verification the call leaves the state
untouched, while a well-signed token — with no condition whatsoever on its
expiry time — still gets its matching unrevoked durable row marked revoked. -/
theorem revokeRefreshToken_tolerant (cfg : Cfg) (st : St) (bad : TokenInput)
    (t : SignedToken) (r : RefreshTokenRow)
    (hbad : jwtVerifyIgnoreExp cfg.secret bad = none)
    (hsec : t.secret = cfg.secret) (hjti : t.payload.jti ≠ "")
    (hr : r ∈ st.refreshTokens) (hid : r.id = t.payload.jti)
    (hrev : r.isRevoked = false) :
    revokeRefreshToken cfg bad st = st ∧
    { r with isRevoked := true } ∈ (revokeRefreshToken cfg (.signed t) st).refreshTokens := by
  constructor
  · unfold revokeRefreshToken
    rw [hbad]
  · unfold revokeRefreshToken
    simp only [jwtVerifyIgnoreExp, hsec, beq_self_eq_true, if_true, bne_iff_ne,
      ne_eq, hjti, not_false_eq_true, if_pos]
    exact List.mem_map.mpr ⟨r, hr, by simp [revokeRowById, hid, hrev]⟩

/-- A concrete refresh token that is already expired (expiry second 5) but
correctly signed, together with its durable row. -/
def expiredRtW : SignedToken :=
  { payload := { sub := "u1", email := none, roles := [], permissions := [],
                 type := some "refresh", jti := "rX", exp := 5 },
    secret := "test-secret", issuer := "enggamehub", audience := "enggamehub-users" }

/-- The durable row of the expired concrete refresh token. -/
def expiredRowW : RefreshTokenRow :=
  { id := "rX", token := .signed expiredRtW, userId := "u1", expiresAt := 5,
    isRevoked := false, createdAt := 0 }

/-- World containing only the expired refresh token's row. -/
def stXW : St :=
  { users := [u1W], refreshTokens := [expiredRowW], redis := [], audit := [], queue := [] }

open TokenService in
/-- C8 witness: a garbage input leaves the world untouched, and the expired
but well-signed token still gets its row revoked. -/
theorem revokeRefreshToken_tolerant_witness :
    revokeRefreshToken cfgW .malformed stXW = stXW ∧
    { expiredRowW with isRevoked := true }
      ∈ (revokeRefreshToken cfgW (.signed expiredRtW) stXW).refreshTokens :=
  revokeRefreshToken_tolerant cfgW stXW .malformed expiredRtW expiredRowW
    (by decide) (by decide) (by decide) (by decide) (by decide) (by decide)

/-! ## C9 -/

open AuthService in
/-- C9: `sendVerificationEmail` fails not only when no user exists for the
email but also when the user exists with `emailVerified` already true; in
the already-verified case (and in the missing-user case) it fails before the
rate-limit counter is touched and before any job is enqueued — the returned
state is exactly the input state. -/
theorem sendVerificationEmail_already_verified_early_error (now : Nat)
    (emailA emailB : String) (st : St) (u : UserRec)
    (hA : findUserByEmail st.users emailA = none)
    (hB : findUserByEmail st.users emailB = some u)
    (hver : u.emailVerified = true) :
    sendVerificationEmail now emailA st = (.error (.badRequest "User not found"), st) ∧
    sendVerificationEmail now emailB st
      = (.error (.badRequest "Email already verified"), st) := by
  constructor
  · simp [sendVerificationEmail, hA]
  · simp [sendVerificationEmail, hB, hver]

open AuthService in
/-- C9 witness: in the concrete two-user world, `nobody@x.com` fails with
"User not found" and the already-verified `c@x.com` fails with "Email
already verified"; both leave the state — rate-limit counters and job queue
included — unchanged. -/
theorem sendVerificationEmail_already_verified_early_error_witness :
    sendVerificationEmail 0 "nobody@x.com" st2W
      = (.error (.badRequest "User not found"), st2W) ∧
    sendVerificationEmail 0 "c@x.com" st2W
      = (.error (.badRequest "Email already verified"), st2W) :=
  sendVerificationEmail_already_verified_early_error 0 "nobody@x.com" "c@x.com"
    st2W u2W (by decide) (by decide) (by decide)

end EngGameHub
